import Mathlib

/-!
A verification development for the `blenderplot` package
(`src/blenderplot/__init__.py`): a thin scripting layer over the Blender
host application that builds a triangle mesh with optional per-vertex
colors, assembles a minimal scene (camera, point light, mesh) and triggers
a render to an image file.

The Python module is shallowly embedded here:

* numpy arrays (after `numpy.asarray` conversion) become `NDArray`:
  a shape together with the flattened data; float entries are modelled
  as rationals (no arithmetic is performed on them, they are only copied).
* the Blender host state reachable from the scene root collection becomes
  the explicit record `HostState`; `render_tri` becomes the state
  transformer `render_tri_core`, returning the mutated state together with
  an optional Python exception.
* the `_ensure_filename` decorator becomes `render_tri` over a small
  `World` with a file system and a stream buffer; the bytes the host
  renderer produces are an arbitrary function of the scene content
  (everything the render reads; the output file path only selects the
  destination).
* the camera placement (`rotation_euler.to_matrix() @ Vector([0,0,d])`,
  real trigonometry) is embedded separately over `ℝ` as `cameraLocation`.
-/

/-- Python exceptions that the embedded code can raise. -/
inductive PyErr where
  | assertionError
  | valueError
  | typeError
  | indexError
  deriving Repr, DecidableEq

/-- A numpy array after `numpy.asarray` conversion: its shape and its
flattened data.  `ndim` is the length of the shape. -/
structure NDArray (α : Type) where
  shape : List Nat
  data : List α
  deriving Repr, DecidableEq

/-- `a.ndim` in numpy. -/
def NDArray.ndim (a : NDArray α) : Nat := a.shape.length

/-- `a.shape[0]` (number of rows of a 2-d array). -/
def NDArray.rows (a : NDArray α) : Nat := a.shape.getD 0 0

/-- `a.shape[1]` (number of columns of a 2-d array). -/
def NDArray.cols (a : NDArray α) : Nat := a.shape.getD 1 0

/-- Split flattened data into `n` rows of `k` entries each: iterating a
2-d numpy array row by row (`for color in colors`). -/
def chunkRows (n k : Nat) (data : List α) : List (List α) :=
  match n with
  | 0 => []
  | m + 1 => data.take k :: chunkRows m k (data.drop k)

/-- The list of rows of a 2-d `NDArray`, in iteration order. -/
def NDArray.rowList (a : NDArray α) : List (List α) :=
  chunkRows a.rows a.cols a.data

/-- A color attribute created by `mesh.color_attributes.new(...)`:
point-domain attributes hold one color per mesh vertex. -/
structure ColorAttr where
  name : String
  domain : String
  attrType : String
  data : List (List ℚ)
  deriving Repr, DecidableEq

/-- A material as wired by `add_vertex_colors_and_material`: node mode is
enabled and a `ShaderNodeVertexColor` node reading `vertexColorLayer` is
linked into the Principled BSDF base-color input. -/
structure Material where
  name : String
  useNodes : Bool
  vertexColorLayer : String
  deriving Repr, DecidableEq

/-- A Blender mesh data-block as built by `mesh.from_pydata`, together
with the color attributes and materials later attached to it. -/
structure Mesh where
  name : String
  numVertices : Nat
  vertices : List (List ℚ)
  triangles : List (List ℤ)
  colorAttributes : List ColorAttr
  materials : List Material
  deriving Repr, DecidableEq

/-- `bpy.data.cameras.new(...)` data-block (`lens` is the focal length). -/
structure CameraData where
  lens : ℚ
  deriving Repr, DecidableEq

/-- `bpy.data.lights.new(..., type='POINT')` data-block. -/
structure LightData where
  energy : ℚ
  lightType : String
  deriving Repr, DecidableEq

/-- The data-block held by a scene object. -/
inductive ObjData where
  | mesh (m : Mesh)
  | camera (c : CameraData)
  | light (l : LightData)
  deriving Repr, DecidableEq

/-- An object linked into the scene root collection.  `location` is the
object's position when it is a rational constant; the camera's location is
computed with real trigonometry and is modelled separately by
`cameraLocation` over `ℝ`, so the camera object carries `Option.none`
here. -/
structure SceneObject where
  name : String
  data : ObjData
  location : Option (ℚ × ℚ × ℚ)
  deriving Repr, DecidableEq

/--
`mesh_from_tri(name, vertices, triangles)`: after `numpy.asarray`
conversion it asserts
`vertices.ndim == 2 and triangles.ndim == 2 and vertices.shape[1] == 3
and triangles.shape[1] == 3`, then builds the mesh with
`mesh.from_pydata(vertices, [], triangles)` and wraps it in a new object.
The assertion failure is modelled as `PyErr.assertionError`.
-/
def mesh_from_tri (name : String) (vertices : NDArray ℚ) (triangles : NDArray ℤ) :
    Except PyErr Mesh :=
  if vertices.ndim == 2 && triangles.ndim == 2 &&
      vertices.cols == 3 && triangles.cols == 3 then
    .ok { name := name
          numVertices := vertices.rows
          vertices := vertices.rowList
          triangles := triangles.rowList
          colorAttributes := []
          materials := [] }
  else
    .error .assertionError

/-- The `colors` argument of `render_tri` / `add_vertex_colors` as the
caller supplies it: `None`, a Python list of rows, or a numpy array. -/
inductive ColorsArg where
  | none
  | pylist (rws : List (List ℚ))
  | nparray (a : NDArray ℚ)
  deriving Repr, DecidableEq

/-- `numpy.asarray(colors, dtype=float)`: identity on arrays, a list of
rows becomes a 2-d array, `None` raises `TypeError` (cannot be converted
to float). -/
def asarrayColors : ColorsArg → Except PyErr (NDArray ℚ)
  | .none => .error .typeError
  | .pylist rws =>
      .ok { shape := [rws.length, (rws.headD []).length], data := rws.flatten }
  | .nparray a => .ok a

/-- Python truthiness of the `colors` argument (`if colors:`): `None` and
empty containers are falsy; a numpy array with more than one element
raises `ValueError` (ambiguous truth value); a one-element array has the
truth value of its element; an empty array is falsy. -/
def colorsTruthy : ColorsArg → Except PyErr Bool
  | .none => .ok false
  | .pylist rws => .ok (!rws.isEmpty)
  | .nparray a =>
      if a.data.length > 1 then .error .valueError
      else match a.data with
        | [x] => .ok (x != 0)
        | _ => .ok false

/-- Blender initialises a fresh FLOAT_COLOR attribute entry to opaque
white before the Python loop overwrites it. -/
def defaultColor : List ℚ := [1, 1, 1, 1]

/-- The loop `for i, color in enumerate(colors): attr.data[i].color = color`
over the attribute storage `acc` (one entry per mesh vertex), starting at
index `i`.  Writing past the end of `attr.data` raises `IndexError`. -/
def copyColors : List (List ℚ) → Nat → List (List ℚ) → Except PyErr (List (List ℚ))
  | [], _, acc => .ok acc
  | c :: rest, i, acc =>
      if i < acc.length then copyColors rest (i + 1) (acc.set i c)
      else .error .indexError

/--
`add_vertex_colors(obj, name, colors)`: converts `colors` with
`numpy.asarray(colors, dtype=float)`, asserts
`colors.ndim == 2 and colors.shape[1] == 4`, allocates a point-domain
FLOAT_COLOR attribute on the object's mesh (one entry per vertex) and
copies the rows in.  Returns the updated mesh and the attribute.
-/
def add_vertex_colors (m : Mesh) (name : String) (colors : ColorsArg) :
    Except PyErr (Mesh × ColorAttr) :=
  match asarrayColors colors with
  | .error e => .error e
  | .ok a =>
      if a.ndim == 2 && a.cols == 4 then
        match copyColors a.rowList 0 (List.replicate m.numVertices defaultColor) with
        | .error e => .error e
        | .ok d =>
            let attr : ColorAttr :=
              { name := name, domain := "POINT", attrType := "FLOAT_COLOR", data := d }
            .ok ({ m with colorAttributes := m.colorAttributes ++ [attr] }, attr)
      else .error .assertionError

/--
`add_vertex_colors_and_material(obj, name, colors)`: attaches the vertex
colors, then creates a node-based material whose `ShaderNodeVertexColor`
node reads the new attribute and is linked into the Principled BSDF
base-color input, and appends the material to the mesh.
-/
def add_vertex_colors_and_material (m : Mesh) (name : String) (colors : ColorsArg) :
    Except PyErr (Mesh × ColorAttr × Material) :=
  match add_vertex_colors m name colors with
  | .error e => .error e
  | .ok (m1, attr) =>
      let material : Material :=
        { name := name, useNodes := true, vertexColorLayer := attr.name }
      .ok ({ m1 with materials := m1.materials ++ [material] }, attr, material)

/-- The Blender host state that `render_tri` reads and mutates: the scene
root collection (its child collections and directly linked objects), the
active camera, the view layer's Cycles denoiser switch, and the render
settings. -/
structure HostState where
  children : List String
  objects : List SceneObject
  sceneCamera : Option String
  useDenoising : Bool
  engine : String
  resolutionX : Int
  resolutionY : Int
  filepath : String
  deriving Repr, DecidableEq

/-- The clearing step of `render_tri`:
`for c in scene.collection.children: scene.collection.children.unlink(c)` —
it unlinks the child collections of the scene root collection. -/
def clearSceneStep (s : HostState) : HostState :=
  { s with children := [] }

/--
The body of `render_tri` (the function wrapped by `_ensure_filename`),
with `output` already a file path.  Mirrors the source line by line:
clear the scene, build the mesh, optionally attach vertex colors and a
material (guarded by `if colors:`), link the mesh, add a camera (focal
length `camera_focal_length`; its location, computed from
`camera_rotation` and `camera_distance` with real trigonometry, is
modelled by `cameraLocation`), add a point light at height
`light_distance` with power `light_energy`, disable the Cycles denoiser,
set the engine to the literal `'CYCLES'` (the `renderer` argument is not
read), set the resolution and the file path.  Returns the mutated state
and the Python exception, if one was raised.
-/
def render_tri_core (output : String) (vertices : NDArray ℚ) (triangles : NDArray ℤ)
    (colors : ColorsArg) (cameraRotation : ℚ × ℚ × ℚ) (cameraDistance : ℚ)
    (cameraFocalLength : ℚ) (lightDistance : ℚ) (lightEnergy : ℚ)
    (renderer : String) (resolutionX : Int) (resolutionY : Int)
    (s : HostState) : HostState × Option PyErr :=
  let s := clearSceneStep s
  match mesh_from_tri "mesh" vertices triangles with
  | .error e => (s, some e)
  | .ok mesh0 =>
      match colorsTruthy colors with
      | .error e => (s, some e)
      | .ok b =>
          match (if b then (add_vertex_colors_and_material mesh0 "Col" colors).map (·.1)
                 else .ok mesh0) with
          | .error e => (s, some e)
          | .ok mesh1 =>
              let s := { s with
                objects := s.objects ++
                  [SceneObject.mk "mesh" (ObjData.mesh mesh1) (some (0, 0, 0))] }
              let s := { s with
                objects := s.objects ++
                  [SceneObject.mk "camera"
                    (ObjData.camera (CameraData.mk cameraFocalLength)) Option.none],
                sceneCamera := some "camera" }
              let s := { s with
                objects := s.objects ++
                  [SceneObject.mk "light" (ObjData.light (LightData.mk lightEnergy "POINT"))
                    (some (0, 0, lightDistance))] }
              let s := { s with useDenoising := false }
              let s := { s with engine := "CYCLES" }
              let s := { s with resolutionX := resolutionX, resolutionY := resolutionY }
              let s := { s with filepath := output }
              (s, none)

/-- The arguments of `render_tri` other than `output`, bundled so the two
calls compared by the `_ensure_filename` refinement share them. -/
structure RenderArgs where
  vertices : NDArray ℚ
  triangles : NDArray ℤ
  colors : ColorsArg
  cameraRotation : ℚ × ℚ × ℚ
  cameraDistance : ℚ
  cameraFocalLength : ℚ
  lightDistance : ℚ
  lightEnergy : ℚ
  renderer : String
  resolutionX : Int
  resolutionY : Int
  deriving Repr, DecidableEq

/-- `render_tri_core` applied to bundled arguments. -/
def runCore (output : String) (a : RenderArgs) (s : HostState) :
    HostState × Option PyErr :=
  render_tri_core output a.vertices a.triangles a.colors a.cameraRotation
    a.cameraDistance a.cameraFocalLength a.lightDistance a.lightEnergy
    a.renderer a.resolutionX a.resolutionY s

/-- Everything the renderer reads from the host state: the scene content
without the output file path (the path only selects where the image bytes
are written). -/
structure SceneContent where
  children : List String
  objects : List SceneObject
  sceneCamera : Option String
  useDenoising : Bool
  engine : String
  resolutionX : Int
  resolutionY : Int
  deriving Repr, DecidableEq

/-- Project the render-relevant scene content out of a host state. -/
def sceneContent (s : HostState) : SceneContent :=
  ⟨s.children, s.objects, s.sceneCamera, s.useDenoising, s.engine,
   s.resolutionX, s.resolutionY⟩

/-- The output argument of the decorated `render_tri`: either a filesystem
path (an object accepted by `os.fspath`) or a writable binary stream
(`os.fspath` raises `TypeError` on it). -/
inductive PyOutput where
  | path (p : String)
  | stream
  deriving Repr, DecidableEq

/-- The world around a `render_tri` call: the host state, the file system
(newest write first) and the bytes written so far to the caller's stream. -/
structure World where
  host : HostState
  files : List (String × List Nat)
  streamBuf : List Nat
  deriving Repr, DecidableEq

/-- Write a file (newest entry shadows older ones). -/
def writeFile (fs : List (String × List Nat)) (p : String) (bytes : List Nat) :
    List (String × List Nat) :=
  (p, bytes) :: fs

/-- Read a file. -/
def readFile (fs : List (String × List Nat)) (p : String) : Option (List Nat) :=
  (fs.find? (fun e => e.1 == p)).map (fun e => e.2)

/-- Delete a file (`TemporaryDirectory` cleanup). -/
def eraseFile (fs : List (String × List Nat)) (p : String) :
    List (String × List Nat) :=
  fs.filter (fun e => e.1 != p)

/-- The temporary file `Path(tmpdir) / 'out.png'` used by the
`_ensure_filename` fallback. -/
def tmpPath : String := "tmpdir/out.png"

/-- One undecorated `render_tri` call with a path: mutate the host state
and, if no exception was raised, let the renderer write the image bytes
`img (sceneContent s)` to the file at `scene.render.filepath`. -/
def renderTriToPath (img : SceneContent → List Nat) (output : String)
    (a : RenderArgs) (w : World) : World × Option PyErr :=
  match runCore output a w.host with
  | (s, some e) => ({ w with host := s }, some e)
  | (s, none) =>
      let w1 := { w with
        host := s
        files := writeFile w.files s.filepath (img (sceneContent s)) }
      (w1, none)

/--
The decorated `render_tri` (`_ensure_filename`): if `os.fspath(output)`
succeeds, call the body on the path; otherwise render to a temporary
file, copy its bytes to the caller's stream, and remove the temporary
directory.
-/
def render_tri (img : SceneContent → List Nat) (output : PyOutput)
    (a : RenderArgs) (w : World) : World × Option PyErr :=
  match output with
  | .path p => renderTriToPath img p a w
  | .stream =>
      match renderTriToPath img tmpPath a w with
      | (w1, some e) => (w1, some e)
      | (w1, none) =>
          match readFile w1.files tmpPath with
          | none => (w1, some .typeError)
          | some bytes =>
              let w2 := { w1 with
                streamBuf := w1.streamBuf ++ bytes
                files := eraseFile w1.files tmpPath }
              (w2, none)

/-- Rotation about the X axis by angle `a` (`mathutils` convention). -/
noncomputable def rotX (a : ℝ) : Matrix (Fin 3) (Fin 3) ℝ :=
  !![1, 0, 0;
     0, Real.cos a, -Real.sin a;
     0, Real.sin a, Real.cos a]

/-- Rotation about the Y axis by angle `b`. -/
noncomputable def rotY (b : ℝ) : Matrix (Fin 3) (Fin 3) ℝ :=
  !![Real.cos b, 0, Real.sin b;
     0, 1, 0;
     -Real.sin b, 0, Real.cos b]

/-- Rotation about the Z axis by angle `c`. -/
noncomputable def rotZ (c : ℝ) : Matrix (Fin 3) (Fin 3) ℝ :=
  !![Real.cos c, -Real.sin c, 0;
     Real.sin c, Real.cos c, 0;
     0, 0, 1]

/-- `Euler((x, y, z)).to_matrix()` for the default XYZ rotation order:
the X rotation is applied first, so the matrix is `Rz * Ry * Rx`. -/
noncomputable def eulerToMatrix (x y z : ℝ) : Matrix (Fin 3) (Fin 3) ℝ :=
  rotZ z * rotY y * rotX x

/-- The camera placement of `render_tri`:
`camera.location = camera.rotation_euler.to_matrix() @ mathutils.Vector([0, 0, camera_distance])`
for `camera.rotation_euler = (x, y, z)`. -/
noncomputable def cameraLocation (x y z d : ℝ) : Fin 3 → ℝ :=
  (eulerToMatrix x y z).mulVec ![0, 0, d]

/-- Euclidean distance of a point from the origin. -/
noncomputable def distFromOrigin (v : Fin 3 → ℝ) : ℝ :=
  Real.sqrt (v 0 ^ 2 + v 1 ^ 2 + v 2 ^ 2)

theorem chunkRows_length (n k : Nat) (data : List α) :
    (chunkRows n k data).length = n := by
  induction n generalizing data with
  | zero => rfl
  | succ m ih => simp [chunkRows, ih]

theorem NDArray.rowList_length (a : NDArray α) : a.rowList.length = a.rows := by
  simp [NDArray.rowList, chunkRows_length]

theorem copyColors_length (src : List (List ℚ)) (i : Nat) (acc r : List (List ℚ))
    (h : copyColors src i acc = .ok r) : r.length = acc.length := by
  induction src generalizing i acc with
  | nil =>
      simp only [copyColors, Except.ok.injEq] at h
      rw [← h]
  | cons c rest ih =>
      simp only [copyColors] at h
      split at h
      · rw [ih _ _ h, List.length_set]
      · cases h

theorem copyColors_get_low (src : List (List ℚ)) (i : Nat) (acc r : List (List ℚ))
    (h : copyColors src i acc = .ok r) :
    ∀ k, k < i → r[k]? = acc[k]? := by
  induction src generalizing i acc with
  | nil =>
      simp only [copyColors, Except.ok.injEq] at h
      intro k _; rw [← h]
  | cons c rest ih =>
      intro k hk
      simp only [copyColors] at h
      split at h
      · rw [ih _ _ h k (Nat.lt_succ_of_lt hk)]
        exact List.getElem?_set_ne (Nat.ne_of_gt hk)
      · cases h

theorem copyColors_get (src : List (List ℚ)) (i : Nat) (acc r : List (List ℚ))
    (h : copyColors src i acc = .ok r) :
    ∀ j, j < src.length → r[i + j]? = src[j]? := by
  induction src generalizing i acc with
  | nil => intro j hj; simp at hj
  | cons c rest ih =>
      intro j hj
      simp only [copyColors] at h
      split at h
      case isTrue hi =>
        cases j with
        | zero =>
            rw [Nat.add_zero,
              copyColors_get_low rest (i + 1) _ r h i (Nat.lt_succ_self i),
              List.getElem?_set_eq_of_lt _ hi]
            simp
        | succ j1 =>
            have hj1 : j1 < rest.length := by
              simpa [Nat.succ_lt_succ_iff] using hj
            rw [show i + (j1 + 1) = (i + 1) + j1 by omega, ih _ _ h j1 hj1]
            simp
      case isFalse => cases h

theorem copyColors_ok_of_le (src : List (List ℚ)) (i : Nat) (acc : List (List ℚ))
    (h : i + src.length ≤ acc.length) : ∃ r, copyColors src i acc = .ok r := by
  induction src generalizing i acc with
  | nil => exact ⟨acc, rfl⟩
  | cons c rest ih =>
      have hi : i < acc.length := by
        have := h; simp only [List.length_cons] at this; omega
      simp only [copyColors, hi, if_pos]
      exact ih (i + 1) (acc.set i c)
        (by simp only [List.length_set, List.length_cons] at h ⊢; omega)

theorem copyColors_err_of_gt : ∀ (src : List (List ℚ)) (i : Nat) (acc : List (List ℚ)),
    src ≠ [] → acc.length < i + src.length →
    copyColors src i acc = .error .indexError := by
  intro src
  induction src with
  | nil => intro i acc hne _; exact absurd rfl hne
  | cons c rest ih =>
      intro i acc _ h
      by_cases hi : i < acc.length
      · have hrest : rest ≠ [] := by
          intro hr
          subst hr
          simp only [List.length_cons, List.length_nil] at h
          omega
        simp only [copyColors, hi, if_pos]
        exact ih (i + 1) (acc.set i c) hrest
          (by simp only [List.length_set, List.length_cons] at h ⊢; omega)
      · simp [copyColors, hi]

theorem shape_pair_iff (s : List Nat) (k : Nat) :
    (s.length = 2 ∧ s.getD 1 0 = k) ↔ ∃ N, s = [N, k] := by
  constructor
  · rintro ⟨h1, h2⟩
    rcases s with _ | ⟨a, _ | ⟨b, _ | ⟨c, s⟩⟩⟩ <;> simp_all
  · rintro ⟨N, rfl⟩
    simp

/-- C3: `mesh_from_tri` raises an assertion failure if and only if, after
array conversion, the vertex array is not a two-dimensional N×3 array or
the triangle array is not a two-dimensional M×3 array; on conforming
inputs it constructs the mesh without error. -/
theorem mesh_from_tri_assertion_iff (name : String) (v : NDArray ℚ) (t : NDArray ℤ) :
    (mesh_from_tri name v t = .error .assertionError ↔
      ¬((∃ N, v.shape = [N, 3]) ∧ ∃ M, t.shape = [M, 3])) ∧
    ((∃ m, mesh_from_tri name v t = .ok m) ↔
      ((∃ N, v.shape = [N, 3]) ∧ ∃ M, t.shape = [M, 3])) := by
  by_cases hsh : ((∃ N, v.shape = [N, 3]) ∧ ∃ M, t.shape = [M, 3])
  · have hb : (v.ndim == 2 && t.ndim == 2 && v.cols == 3 && t.cols == 3) = true := by
      obtain ⟨⟨N, hN⟩, ⟨M, hM⟩⟩ := hsh
      simp [NDArray.ndim, NDArray.cols, hN, hM]
    simp [mesh_from_tri, hb, hsh]
  · have hb : ¬((v.ndim == 2 && t.ndim == 2 && v.cols == 3 && t.cols == 3) = true) := by
      rw [← shape_pair_iff v.shape 3, ← shape_pair_iff t.shape 3] at hsh
      simp only [Bool.and_eq_true, beq_iff_eq, NDArray.ndim, NDArray.cols]
      tauto
    simp [mesh_from_tri, hb, hsh]

theorem copyColors_error_eq (src : List (List ℚ)) (i : Nat) (acc : List (List ℚ))
    (e : PyErr) (h : copyColors src i acc = .error e) : e = .indexError := by
  induction src generalizing i acc with
  | nil => simp [copyColors] at h
  | cons c rest ih =>
      simp only [copyColors] at h
      split at h
      · exact ih _ _ h
      · injection h with h1
        exact h1.symm

theorem ndim_cols_iff (a : NDArray α) (k : Nat) :
    ((a.ndim == 2 && a.cols == k) = true) ↔ ∃ M, a.shape = [M, k] := by
  rw [← shape_pair_iff a.shape k]
  simp [NDArray.ndim, NDArray.cols]

/-- C4 counterexample: `add_vertex_colors` on a mesh with N = 3 vertices
accepts a 2×4 color array — a row count differing from N is not rejected
by the shape assertions, which check only `ndim == 2 and shape[1] == 4`. -/
theorem add_vertex_colors_rowcount_unchecked :
    ∃ r, add_vertex_colors
        (Mesh.mk "mesh" 3 [[0, 0, 0], [1, 0, 0], [0, 1, 0]] [[0, 1, 2]] [] [])
        "Col" (ColorsArg.nparray (NDArray.mk [2, 4] [1, 0, 0, 1, 0, 1, 0, 1])) =
      .ok r :=
  ⟨_, rfl⟩

/-- C4 (amended): the shape assertion of `add_vertex_colors` checks only
that the color array is two-dimensional with 4 columns; the row count M is
not compared against the vertex count N.  An M×4 array with M ≤ N is
accepted, an M×4 array with M > N fails with an `IndexError` while copying
(not a shape assertion), and a non-(M×4) array fails the assertion. -/
theorem add_vertex_colors_shape_assertion (m : Mesh) (name : String) (a : NDArray ℚ) :
    (add_vertex_colors m name (.nparray a) = .error .assertionError ↔
      ¬∃ M, a.shape = [M, 4]) ∧
    (∀ M, a.shape = [M, 4] → M ≤ m.numVertices →
      ∃ r, add_vertex_colors m name (.nparray a) = .ok r) ∧
    (∀ M, a.shape = [M, 4] → m.numVertices < M →
      add_vertex_colors m name (.nparray a) = .error .indexError) := by
  refine ⟨?_, ?_, ?_⟩
  · by_cases hsh : ∃ M, a.shape = [M, 4]
    · have hb : (a.ndim == 2 && a.cols == 4) = true := (ndim_cols_iff a 4).mpr hsh
      simp only [add_vertex_colors, asarrayColors, hb, if_true]
      cases hcc : copyColors a.rowList 0 (List.replicate m.numVertices defaultColor) with
      | error e =>
          have he := copyColors_error_eq _ _ _ _ hcc
          subst he
          simp [hsh]
      | ok d => simp [hsh]
    · have hb : ¬((a.ndim == 2 && a.cols == 4) = true) := fun hc =>
        hsh ((ndim_cols_iff a 4).mp hc)
      simp [add_vertex_colors, asarrayColors, hb, hsh]
  · intro M hM hle
    have hb : (a.ndim == 2 && a.cols == 4) = true := (ndim_cols_iff a 4).mpr ⟨M, hM⟩
    have hlen : a.rowList.length = M := by
      simp [NDArray.rowList_length, NDArray.rows, hM]
    obtain ⟨r, hr⟩ := copyColors_ok_of_le a.rowList 0
      (List.replicate m.numVertices defaultColor)
      (by simp only [hlen, List.length_replicate, Nat.zero_add]; exact hle)
    simp only [add_vertex_colors, asarrayColors, hb, if_true, hr]
    exact ⟨_, rfl⟩
  · intro M hM hgt
    have hb : (a.ndim == 2 && a.cols == 4) = true := (ndim_cols_iff a 4).mpr ⟨M, hM⟩
    have hlen : a.rowList.length = M := by
      simp [NDArray.rowList_length, NDArray.rows, hM]
    have hne : a.rowList ≠ [] := by
      intro h0
      rw [h0] at hlen
      simp at hlen
      omega
    have herr := copyColors_err_of_gt a.rowList 0
      (List.replicate m.numVertices defaultColor) hne
      (by simp only [hlen, List.length_replicate, Nat.zero_add]; exact hgt)
    simp [add_vertex_colors, asarrayColors, hb, herr]

/-- C4 witness: on a 2-vertex mesh a 2×4 array is accepted and a 3×4 array
fails with `IndexError`. -/
theorem add_vertex_colors_shape_assertion_witness :
    (∃ r, add_vertex_colors (Mesh.mk "m" 2 [[0, 0, 0], [1, 0, 0]] [[0, 1, 2]] [] [])
        "Col" (ColorsArg.nparray (NDArray.mk [2, 4] [1, 0, 0, 1, 0, 1, 0, 1])) =
      .ok r) ∧
    add_vertex_colors (Mesh.mk "m" 2 [[0, 0, 0], [1, 0, 0]] [[0, 1, 2]] [] [])
        "Col" (ColorsArg.nparray
          (NDArray.mk [3, 4] [1, 0, 0, 1, 0, 1, 0, 1, 0, 0, 1, 1])) =
      .error .indexError :=
  ⟨(add_vertex_colors_shape_assertion
      (Mesh.mk "m" 2 [[0, 0, 0], [1, 0, 0]] [[0, 1, 2]] [] []) "Col"
      (NDArray.mk [2, 4] [1, 0, 0, 1, 0, 1, 0, 1])).2.1 2 rfl (by decide),
   (add_vertex_colors_shape_assertion
      (Mesh.mk "m" 2 [[0, 0, 0], [1, 0, 0]] [[0, 1, 2]] [] []) "Col"
      (NDArray.mk [3, 4] [1, 0, 0, 1, 0, 1, 0, 1, 0, 0, 1, 1])).2.2 3 rfl (by decide)⟩

/-- C6: on a mesh with N vertices and a conforming N×4 color array,
`add_vertex_colors` allocates a point-domain FLOAT_COLOR attribute on the
mesh and copies the values in: entry i of the attribute equals row i of
the supplied array, for every i < N. -/
theorem add_vertex_colors_copies (m : Mesh) (name : String) (a : NDArray ℚ) (N : Nat)
    (hN : m.numVertices = N) (hshape : a.shape = [N, 4]) :
    ∃ m1 attr, add_vertex_colors m name (.nparray a) = .ok (m1, attr) ∧
      attr.domain = "POINT" ∧ attr.attrType = "FLOAT_COLOR" ∧
      m1.colorAttributes = m.colorAttributes ++ [attr] ∧
      attr.data.length = N ∧
      ∀ i, i < N → attr.data[i]? = a.rowList[i]? := by
  have hb : (a.ndim == 2 && a.cols == 4) = true := (ndim_cols_iff a 4).mpr ⟨N, hshape⟩
  have hlen : a.rowList.length = N := by
    simp [NDArray.rowList_length, NDArray.rows, hshape]
  obtain ⟨r, hr⟩ := copyColors_ok_of_le a.rowList 0
    (List.replicate m.numVertices defaultColor)
    (by simp only [hlen, List.length_replicate, Nat.zero_add, hN]; exact le_refl N)
  refine ⟨{ m with colorAttributes :=
              m.colorAttributes ++ [ColorAttr.mk name "POINT" "FLOAT_COLOR" r] },
          ColorAttr.mk name "POINT" "FLOAT_COLOR" r, ?_, rfl, rfl, rfl, ?_, ?_⟩
  · simp only [add_vertex_colors, asarrayColors, hb, if_true, hr]
  · have hlr := copyColors_length _ _ _ _ hr
    simp only [hlr, List.length_replicate, hN]
  · intro i hi
    have hg := copyColors_get _ _ _ _ hr i (by omega)
    simpa using hg

/-- C6 witness: the attribute created for a concrete 2-vertex mesh holds
exactly the two supplied RGBA rows. -/
theorem add_vertex_colors_copies_witness :
    ∃ m1 attr, add_vertex_colors (Mesh.mk "m" 2 [[0, 0, 0], [1, 0, 0]] [[0, 1, 2]] [] [])
        "Col" (.nparray (NDArray.mk [2, 4] [1, 0, 0, 1, 0, 1, 0, 1])) = .ok (m1, attr) ∧
      attr.domain = "POINT" ∧ attr.attrType = "FLOAT_COLOR" ∧
      m1.colorAttributes =
        (Mesh.mk "m" 2 [[0, 0, 0], [1, 0, 0]] [[0, 1, 2]] [] []).colorAttributes ++ [attr] ∧
      attr.data.length = 2 ∧
      ∀ i, i < 2 →
        attr.data[i]? = (NDArray.mk [2, 4] [1, 0, 0, 1, 0, 1, 0, 1]).rowList[i]? :=
  add_vertex_colors_copies (Mesh.mk "m" 2 [[0, 0, 0], [1, 0, 0]] [[0, 1, 2]] [] [])
    "Col" (NDArray.mk [2, 4] [1, 0, 0, 1, 0, 1, 0, 1]) 2 rfl rfl

theorem render_tri_core_ok_shape (out : String) (v : NDArray ℚ) (t : NDArray ℤ)
    (c : ColorsArg) (rot : ℚ × ℚ × ℚ) (cd cf ld le : ℚ) (rend : String) (rx ry : Int)
    (s s1 : HostState)
    (h : render_tri_core out v t c rot cd cf ld le rend rx ry s = (s1, Option.none)) :
    ∃ mesh1, s1 = HostState.mk []
      (s.objects ++
        [SceneObject.mk "mesh" (ObjData.mesh mesh1) (some (0, 0, 0)),
         SceneObject.mk "camera" (ObjData.camera (CameraData.mk cf)) Option.none,
         SceneObject.mk "light" (ObjData.light (LightData.mk le "POINT")) (some (0, 0, ld))])
      (some "camera") false "CYCLES" rx ry out := by
  simp only [render_tri_core, clearSceneStep] at h
  split at h
  · simp at h
  · split at h
    · simp at h
    · split at h
      · simp at h
      · simp only [Prod.mk.injEq] at h
        rename_i mesh1 heq
        refine ⟨mesh1, ?_⟩
        rw [← h.1]
        simp [List.append_assoc]

/-- C7: when `render_tri` reaches the render invocation (the call returns
without an exception), the scene's render filepath equals the supplied
output argument and the render resolution equals the supplied
`resolution_x` and `resolution_y`. -/
theorem render_tri_sets_path_and_resolution (out : String) (v : NDArray ℚ)
    (t : NDArray ℤ) (c : ColorsArg) (rot : ℚ × ℚ × ℚ) (cd cf ld le : ℚ)
    (rend : String) (rx ry : Int) (s s1 : HostState)
    (h : render_tri_core out v t c rot cd cf ld le rend rx ry s = (s1, Option.none)) :
    s1.filepath = out ∧ s1.resolutionX = rx ∧ s1.resolutionY = ry := by
  obtain ⟨mesh1, rfl⟩ := render_tri_core_ok_shape out v t c rot cd cf ld le rend rx ry s s1 h
  exact ⟨rfl, rfl, rfl⟩

/-- C7 witness: a concrete successful call has filepath `"out.png"` and
resolution 800×600 at the render invocation. -/
theorem render_tri_sets_path_and_resolution_witness :
    (render_tri_core "out.png" (NDArray.mk [3, 3] [0, 0, 0, 1, 0, 0, 0, 1, 0])
        (NDArray.mk [1, 3] [0, 1, 2]) ColorsArg.none (1, 0, 1) 5 35 5 300
        "CYCLES" 800 600 (HostState.mk [] [] Option.none true "X" 0 0 "")).1.filepath =
      "out.png" ∧
    (render_tri_core "out.png" (NDArray.mk [3, 3] [0, 0, 0, 1, 0, 0, 0, 1, 0])
        (NDArray.mk [1, 3] [0, 1, 2]) ColorsArg.none (1, 0, 1) 5 35 5 300
        "CYCLES" 800 600 (HostState.mk [] [] Option.none true "X" 0 0 "")).1.resolutionX =
      800 ∧
    (render_tri_core "out.png" (NDArray.mk [3, 3] [0, 0, 0, 1, 0, 0, 0, 1, 0])
        (NDArray.mk [1, 3] [0, 1, 2]) ColorsArg.none (1, 0, 1) 5 35 5 300
        "CYCLES" 800 600 (HostState.mk [] [] Option.none true "X" 0 0 "")).1.resolutionY =
      600 :=
  render_tri_sets_path_and_resolution "out.png" (NDArray.mk [3, 3] [0, 0, 0, 1, 0, 0, 0, 1, 0])
    (NDArray.mk [1, 3] [0, 1, 2]) ColorsArg.none (1, 0, 1) 5 35 5 300 "CYCLES" 800 600
    (HostState.mk [] [] Option.none true "X" 0 0 "") _ rfl

/-- C10: whenever a `render_tri` call reaches the render invocation, the
Cycles denoiser on the current view layer has been disabled, regardless of
every argument supplied by the caller. -/
theorem render_tri_disables_denoiser (out : String) (v : NDArray ℚ)
    (t : NDArray ℤ) (c : ColorsArg) (rot : ℚ × ℚ × ℚ) (cd cf ld le : ℚ)
    (rend : String) (rx ry : Int) (s s1 : HostState)
    (h : render_tri_core out v t c rot cd cf ld le rend rx ry s = (s1, Option.none)) :
    s1.useDenoising = false := by
  obtain ⟨mesh1, rfl⟩ := render_tri_core_ok_shape out v t c rot cd cf ld le rend rx ry s s1 h
  rfl

/-- C10 witness: a concrete call starting with the denoiser enabled ends
with it disabled at the render invocation. -/
theorem render_tri_disables_denoiser_witness :
    (render_tri_core "out.png" (NDArray.mk [3, 3] [0, 0, 0, 1, 0, 0, 0, 1, 0])
        (NDArray.mk [1, 3] [0, 1, 2]) ColorsArg.none (1, 0, 1) 5 35 5 300
        "CYCLES" 800 600 (HostState.mk [] [] Option.none true "X" 0 0 "")).1.useDenoising =
      false :=
  render_tri_disables_denoiser "out.png" (NDArray.mk [3, 3] [0, 0, 0, 1, 0, 0, 0, 1, 0])
    (NDArray.mk [1, 3] [0, 1, 2]) ColorsArg.none (1, 0, 1) 5 35 5 300 "CYCLES" 800 600
    (HostState.mk [] [] Option.none true "X" 0 0 "") _ rfl

/-- C2: the `renderer` argument is ignored — a call supplying
`renderer = "BLENDER_EEVEE"` still sets the scene's render engine to the
hard-coded literal `'CYCLES'` before rendering (line 107 of the source
does not read the parameter), so the render engine is not a configuration
knob as claimed. -/
theorem render_tri_engine_ignores_renderer :
    ((render_tri_core "out.png" (NDArray.mk [3, 3] [0, 0, 0, 1, 0, 0, 0, 1, 0])
        (NDArray.mk [1, 3] [0, 1, 2]) ColorsArg.none (1, 0, 1) 5 35 5 300
        "BLENDER_EEVEE" 800 600
        (HostState.mk [] [] Option.none true "BLENDER_EEVEE" 0 0 "")).1.engine = "CYCLES") ∧
    (render_tri_core "out.png" (NDArray.mk [3, 3] [0, 0, 0, 1, 0, 0, 0, 1, 0])
        (NDArray.mk [1, 3] [0, 1, 2]) ColorsArg.none (1, 0, 1) 5 35 5 300
        "BLENDER_EEVEE" 800 600
        (HostState.mk [] [] Option.none true "BLENDER_EEVEE" 0 0 "")).2 = Option.none ∧
    "CYCLES" ≠ "BLENDER_EEVEE" :=
  ⟨rfl, rfl, by decide⟩

/-- C5 counterexample: after a previous `render_tri` call on an initially
empty scene, the clearing step of the next call leaves the previous call's
mesh object linked to (hence reachable from) the scene root collection —
the loop only unlinks child collections, not objects. -/
theorem clearing_keeps_previous_call_objects :
    SceneObject.mk "mesh"
        (ObjData.mesh (Mesh.mk "mesh" 3 [[0, 0, 0], [1, 0, 0], [0, 1, 0]] [[0, 1, 2]] [] []))
        (some (0, 0, 0)) ∈
      (clearSceneStep
        (render_tri_core "a.png" (NDArray.mk [3, 3] [0, 0, 0, 1, 0, 0, 0, 1, 0])
          (NDArray.mk [1, 3] [0, 1, 2]) ColorsArg.none (1, 0, 1) 5 35 5 300
          "CYCLES" 800 600 (HostState.mk [] [] Option.none true "X" 0 0 "")).1).objects := by
  decide

/-- C5 (amended): the clearing step of `render_tri` unlinks every child
collection of the scene root collection, but leaves the objects linked
directly into the root collection — such as the mesh, camera and light of
a previous call — untouched. -/
theorem clearSceneStep_spec (s : HostState) :
    (clearSceneStep s).children = [] ∧ (clearSceneStep s).objects = s.objects :=
  ⟨rfl, rfl⟩

/-- C8: with conforming geometry, a `render_tri` call whose `colors`
argument is a numpy array with more than one element raises `ValueError`
at `if colors:` and leaves the scene exactly as the clearing step left it
(no color attribute or material has been attached, no object linked);
whereas any falsy `colors` value — `None`, an empty list, an empty array —
is silently treated as "no colors" and the linked mesh carries no color
attribute and no material. -/
theorem render_tri_colors_truthiness (out : String) (v : NDArray ℚ) (t : NDArray ℤ)
    (hv : ∃ N, v.shape = [N, 3]) (ht : ∃ M, t.shape = [M, 3])
    (a : NDArray ℚ) (ha : 1 < a.data.length)
    (rot : ℚ × ℚ × ℚ) (cd cf ld le : ℚ) (rend : String) (rx ry : Int) (s : HostState) :
    (render_tri_core out v t (.nparray a) rot cd cf ld le rend rx ry s =
      (clearSceneStep s, some .valueError)) ∧
    (∀ c, colorsTruthy c = .ok false →
      ∃ mesh0, mesh_from_tri "mesh" v t = .ok mesh0 ∧
        mesh0.colorAttributes = [] ∧ mesh0.materials = [] ∧
        (render_tri_core out v t c rot cd cf ld le rend rx ry s).2 = Option.none ∧
        SceneObject.mk "mesh" (ObjData.mesh mesh0) (some (0, 0, 0)) ∈
          (render_tri_core out v t c rot cd cf ld le rend rx ry s).1.objects) ∧
    colorsTruthy ColorsArg.none = .ok false ∧
    colorsTruthy (ColorsArg.pylist []) = .ok false ∧
    (∀ sh, colorsTruthy (ColorsArg.nparray (NDArray.mk sh [])) = .ok false) := by
  have hbv : (v.ndim == 2 && t.ndim == 2 && v.cols == 3 && t.cols == 3) = true := by
    obtain ⟨N, hN⟩ := hv
    obtain ⟨M, hM⟩ := ht
    simp [NDArray.ndim, NDArray.cols, hN, hM]
  have hmesh : mesh_from_tri "mesh" v t =
      .ok (Mesh.mk "mesh" v.rows v.rowList t.rowList [] []) := by
    simp [mesh_from_tri, hbv]
  have htruthy : colorsTruthy (.nparray a) = .error .valueError := by
    simp [colorsTruthy, ha]
  refine ⟨?_, ?_, rfl, rfl, ?_⟩
  · simp [render_tri_core, hmesh, htruthy]
  · intro c hc
    refine ⟨Mesh.mk "mesh" v.rows v.rowList t.rowList [] [], hmesh, rfl, rfl, ?_, ?_⟩
    · simp [render_tri_core, hmesh, hc]
    · simp [render_tri_core, hmesh, hc]
  · intro sh
    simp [colorsTruthy]

/-- C8 witness: concrete runs — a 3×4 numpy color array makes the call
raise `ValueError` leaving only the cleared scene, while `colors = None`
renders an uncolored mesh. -/
theorem render_tri_colors_truthiness_witness :
    (render_tri_core "out.png" (NDArray.mk [3, 3] [0, 0, 0, 1, 0, 0, 0, 1, 0])
        (NDArray.mk [1, 3] [0, 1, 2])
        (.nparray (NDArray.mk [3, 4] [1, 0, 0, 1, 0, 1, 0, 1, 0, 0, 1, 1]))
        (1, 0, 1) 5 35 5 300 "CYCLES" 800 600
        (HostState.mk ["old"] [] Option.none true "X" 0 0 "") =
      (clearSceneStep (HostState.mk ["old"] [] Option.none true "X" 0 0 ""), some .valueError)) ∧
    (∃ mesh0, mesh_from_tri "mesh" (NDArray.mk [3, 3] [0, 0, 0, 1, 0, 0, 0, 1, 0])
        (NDArray.mk [1, 3] [0, 1, 2]) = .ok mesh0 ∧
      mesh0.colorAttributes = [] ∧ mesh0.materials = [] ∧
      (render_tri_core "out.png" (NDArray.mk [3, 3] [0, 0, 0, 1, 0, 0, 0, 1, 0])
        (NDArray.mk [1, 3] [0, 1, 2]) ColorsArg.none
        (1, 0, 1) 5 35 5 300 "CYCLES" 800 600
        (HostState.mk ["old"] [] Option.none true "X" 0 0 "")).2 = Option.none ∧
      SceneObject.mk "mesh" (ObjData.mesh mesh0) (some (0, 0, 0)) ∈
        (render_tri_core "out.png" (NDArray.mk [3, 3] [0, 0, 0, 1, 0, 0, 0, 1, 0])
          (NDArray.mk [1, 3] [0, 1, 2]) ColorsArg.none
          (1, 0, 1) 5 35 5 300 "CYCLES" 800 600
          (HostState.mk ["old"] [] Option.none true "X" 0 0 "")).1.objects) :=
  ⟨(render_tri_colors_truthiness "out.png" (NDArray.mk [3, 3] [0, 0, 0, 1, 0, 0, 0, 1, 0])
      (NDArray.mk [1, 3] [0, 1, 2]) ⟨3, rfl⟩ ⟨1, rfl⟩
      (NDArray.mk [3, 4] [1, 0, 0, 1, 0, 1, 0, 1, 0, 0, 1, 1]) (by decide)
      (1, 0, 1) 5 35 5 300 "CYCLES" 800 600
      (HostState.mk ["old"] [] Option.none true "X" 0 0 "")).1,
   (render_tri_colors_truthiness "out.png" (NDArray.mk [3, 3] [0, 0, 0, 1, 0, 0, 0, 1, 0])
      (NDArray.mk [1, 3] [0, 1, 2]) ⟨3, rfl⟩ ⟨1, rfl⟩
      (NDArray.mk [3, 4] [1, 0, 0, 1, 0, 1, 0, 1, 0, 0, 1, 1]) (by decide)
      (1, 0, 1) 5 35 5 300 "CYCLES" 800 600
      (HostState.mk ["old"] [] Option.none true "X" 0 0 "")).2.1 ColorsArg.none rfl⟩

theorem runCore_output_indep (o1 o2 : String) (a : RenderArgs) (s : HostState) :
    (runCore o1 a s).2 = (runCore o2 a s).2 ∧
    sceneContent (runCore o1 a s).1 = sceneContent (runCore o2 a s).1 := by
  unfold runCore render_tri_core clearSceneStep
  cases hm : mesh_from_tri "mesh" a.vertices a.triangles with
  | error e => simp [sceneContent]
  | ok mesh0 =>
      cases htr : colorsTruthy a.colors with
      | error e => simp [sceneContent]
      | ok b =>
          cases hvc : (if b then (add_vertex_colors_and_material mesh0 "Col" a.colors).map (·.1)
                      else .ok mesh0) with
          | error e => simp [hvc, sceneContent]
          | ok mesh1 => simp [hvc, sceneContent]

theorem runCore_ok_filepath (o : String) (a : RenderArgs) (s : HostState)
    (h : (runCore o a s).2 = Option.none) : (runCore o a s).1.filepath = o := by
  rcases hrc : runCore o a s with ⟨s1, e1⟩
  rw [hrc] at h
  simp only at h
  subst h
  unfold runCore at hrc
  obtain ⟨mesh1, rfl⟩ := render_tri_core_ok_shape o a.vertices a.triangles a.colors
    a.cameraRotation a.cameraDistance a.cameraFocalLength a.lightDistance a.lightEnergy
    a.renderer a.resolutionX a.resolutionY s s1 hrc
  rfl

theorem readFile_writeFile (fs : List (String × List Nat)) (p : String) (b : List Nat) :
    readFile (writeFile fs p b) p = some b := by
  simp [readFile, writeFile, List.find?]

/-- C1: calling `render_tri` with a writable stream as the output argument
writes to that stream exactly the bytes that the call with an equivalent
filesystem path writes to the file at that path — and the two calls agree
on whether an exception is raised. -/
theorem render_tri_stream_refines_path (img : SceneContent → List Nat) (p : String)
    (a : RenderArgs) (s : HostState) (fs : List (String × List Nat)) :
    (render_tri img (.path p) a (World.mk s fs [])).2 =
      (render_tri img PyOutput.stream a (World.mk s fs [])).2 ∧
    ((render_tri img (.path p) a (World.mk s fs [])).2 = Option.none →
      readFile (render_tri img (.path p) a (World.mk s fs [])).1.files p =
        some (render_tri img PyOutput.stream a (World.mk s fs [])).1.streamBuf) := by
  obtain ⟨he, hc⟩ := runCore_output_indep p tmpPath a s
  rcases h1 : runCore p a s with ⟨s1, e1⟩
  rcases h2 : runCore tmpPath a s with ⟨s2, e2⟩
  rw [h1, h2] at he hc
  simp only at he hc
  cases e1 with
  | some e =>
      subst he
      simp [render_tri, renderTriToPath, h1, h2]
  | none =>
      have hf1 : s1.filepath = p := by
        have := runCore_ok_filepath p a s (by rw [h1])
        rw [h1] at this
        exact this
      have hf2 : s2.filepath = tmpPath := by
        have := runCore_ok_filepath tmpPath a s (by rw [h2, ← he])
        rw [h2] at this
        exact this
      subst he
      simp only [render_tri, renderTriToPath, h1, h2, hf1, hf2]
      constructor
      · simp [readFile_writeFile]
      · intro _
        simp [readFile_writeFile, hc]

/-- C1 witness: for a concrete renderer function and concrete inputs, the
stream call receives exactly the bytes the path call writes to the file. -/
theorem render_tri_stream_refines_path_witness :
    readFile (render_tri (fun _ => [137, 80, 78, 71]) (.path "out.png")
        (RenderArgs.mk (NDArray.mk [3, 3] [0, 0, 0, 1, 0, 0, 0, 1, 0])
          (NDArray.mk [1, 3] [0, 1, 2]) ColorsArg.none (1, 0, 1) 5 35 5 300 "CYCLES" 800 600)
        (World.mk (HostState.mk [] [] Option.none true "X" 0 0 "") [] [])).1.files "out.png" =
      some (render_tri (fun _ => [137, 80, 78, 71]) PyOutput.stream
        (RenderArgs.mk (NDArray.mk [3, 3] [0, 0, 0, 1, 0, 0, 0, 1, 0])
          (NDArray.mk [1, 3] [0, 1, 2]) ColorsArg.none (1, 0, 1) 5 35 5 300 "CYCLES" 800 600)
        (World.mk (HostState.mk [] [] Option.none true "X" 0 0 "") [] [])).1.streamBuf :=
  (render_tri_stream_refines_path (fun _ => [137, 80, 78, 71]) "out.png"
    (RenderArgs.mk (NDArray.mk [3, 3] [0, 0, 0, 1, 0, 0, 0, 1, 0])
      (NDArray.mk [1, 3] [0, 1, 2]) ColorsArg.none (1, 0, 1) 5 35 5 300 "CYCLES" 800 600)
    (HostState.mk [] [] Option.none true "X" 0 0 "") []).2 rfl

theorem cameraLocation_components (x y z d : ℝ) :
    cameraLocation x y z d 0 =
      d * (Real.cos z * Real.sin y * Real.cos x + Real.sin z * Real.sin x) ∧
    cameraLocation x y z d 1 =
      d * (Real.sin z * Real.sin y * Real.cos x - Real.cos z * Real.sin x) ∧
    cameraLocation x y z d 2 = d * (Real.cos y * Real.cos x) := by
  refine ⟨?_, ?_, ?_⟩ <;>
  · simp [cameraLocation, eulerToMatrix, rotX, rotY, rotZ, Matrix.mulVec,
      Matrix.dotProduct, Matrix.mul_apply, Fin.sum_univ_three]
    ring

/-- C9 counterexample: with `camera_rotation = (0, 0, 0)` and
`camera_distance = -5` the camera placed by `render_tri` lies at Euclidean
distance 5 from the origin, not −5, so the distance is not "exactly
camera_distance" for every value of the argument. -/
theorem camera_distance_negative_counterexample :
    distFromOrigin (cameraLocation 0 0 0 (-5)) = 5 ∧ (5 : ℝ) ≠ -5 := by
  constructor
  · obtain ⟨h0, h1, h2⟩ := cameraLocation_components 0 0 0 (-5)
    have hsum : cameraLocation 0 0 0 (-5) 0 ^ 2 + cameraLocation 0 0 0 (-5) 1 ^ 2 +
        cameraLocation 0 0 0 (-5) 2 ^ 2 = 25 := by
      rw [h0, h1, h2]
      norm_num [Real.cos_zero, Real.sin_zero]
    simp only [distFromOrigin]
    rw [hsum, show (25 : ℝ) = 5 ^ 2 by norm_num]
    exact Real.sqrt_sq (by norm_num)
  · norm_num

/-- C9 (amended): the camera location is the rotation matrix of
`camera_rotation` applied to `(0, 0, camera_distance)`, and for every
nonnegative `camera_distance` (in general, for `|camera_distance|`) the
camera lies at Euclidean distance exactly `camera_distance` from the
origin — rotation preserves the norm. -/
theorem camera_lies_at_camera_distance (x y z d : ℝ) (hd : 0 ≤ d) :
    cameraLocation x y z d = (eulerToMatrix x y z).mulVec ![0, 0, d] ∧
    distFromOrigin (cameraLocation x y z d) = d := by
  refine ⟨rfl, ?_⟩
  obtain ⟨h0, h1, h2⟩ := cameraLocation_components x y z d
  have hx := Real.sin_sq_add_cos_sq x
  have hy := Real.sin_sq_add_cos_sq y
  have hz := Real.sin_sq_add_cos_sq z
  have hsum : cameraLocation x y z d 0 ^ 2 + cameraLocation x y z d 1 ^ 2 +
      cameraLocation x y z d 2 ^ 2 = d ^ 2 := by
    rw [h0, h1, h2]
    linear_combination (d ^ 2) * hx + (d ^ 2 * Real.cos x ^ 2) * hy +
      (d ^ 2 * (Real.sin y ^ 2 * Real.cos x ^ 2 + Real.sin x ^ 2)) * hz
  simp only [distFromOrigin]
  rw [hsum]
  exact Real.sqrt_sq hd

/-- C9 witness: a concrete rotation `(1, 0, 1)` and distance 5 put the
camera at distance exactly 5. -/
theorem camera_lies_at_camera_distance_witness :
    cameraLocation 1 0 1 5 = (eulerToMatrix 1 0 1).mulVec ![0, 0, 5] ∧
    distFromOrigin (cameraLocation 1 0 1 5) = 5 :=
  camera_lies_at_camera_distance 1 0 1 5 (by norm_num)
